import Mathlib

/-!
Verification of the mukoko-weather server core against its specification.

Each Python module relevant to the checked claims is shallowly embedded:
pure computations become Lean functions, the mutable per-provider circuit
state becomes explicit state passing, timestamps (Python `time.time()`
floats) are modelled as rationals, and JSON-ish dynamic values are
modelled with a small inductive type.  Definitions mirror
`api/py/_circuit_breaker.py`, `api/py/_weather.py`, `api/py/_chat.py`,
`api/py/_ai.py` and `api/py/_reports.py`.
-/

/- ===================================================================
   § Circuit breaker — api/py/_circuit_breaker.py
   =================================================================== -/

/-- `CircuitBreakerConfig` dataclass: per-provider configuration. -/
structure CircuitBreakerConfig where
  failure_threshold : Nat := 3
  cooldown_s : ℚ := 120
  window_s : ℚ := 300
  timeout_s : ℚ := 8
deriving Repr, DecidableEq

/-- Config for provider `"tomorrow-io"` in `PROVIDER_CONFIGS`. -/
def tomorrowConfig : CircuitBreakerConfig :=
  { failure_threshold := 3, cooldown_s := 120, window_s := 300, timeout_s := 5 }

/-- Config for provider `"open-meteo"` in `PROVIDER_CONFIGS`. -/
def openMeteoConfig : CircuitBreakerConfig :=
  { failure_threshold := 5, cooldown_s := 300, window_s := 300, timeout_s := 8 }

/-- Config for provider `"anthropic"` in `PROVIDER_CONFIGS`. -/
def anthropicConfig : CircuitBreakerConfig :=
  { failure_threshold := 3, cooldown_s := 300, window_s := 600, timeout_s := 15 }

/-- `_CircuitState` dataclass: the mutable per-provider state.
`state` is one of `"closed" | "open" | "half_open"`; `failures` is the
list of failure timestamps; `last_opened_at` the time the circuit last
opened. -/
structure CircuitState where
  state : String := "closed"
  failures : List ℚ := []
  last_opened_at : Option ℚ := none
deriving Repr, DecidableEq

/-- `CircuitBreaker._cooldown_elapsed`: true when `last_opened_at` is set
and `time.time() - last_opened_at >= cooldown_s`. -/
def cooldown_elapsed (cfg : CircuitBreakerConfig) (now : ℚ) (s : CircuitState) : Bool :=
  match s.last_opened_at with
  | none => false
  | some t => decide (cfg.cooldown_s ≤ now - t)

/-- `CircuitBreaker.state` property: reading the state while `"open"`
with the cooldown elapsed mutates it to `"half_open"`.  Returns the
updated state record (its `.state` field is the property's value). -/
def state_read (cfg : CircuitBreakerConfig) (now : ℚ) (s : CircuitState) : CircuitState :=
  if s.state = "open" ∧ cooldown_elapsed cfg now s then
    { s with state := "half_open" }
  else s

/-- Membership test `state in ("closed", "half_open")` on a raw state. -/
def allowed_states (s : CircuitState) : Bool :=
  s.state == "closed" || s.state == "half_open"

/-- `CircuitBreaker.is_allowed`: `state in ("closed", "half_open")`
(evaluated on the possibly-updated state). -/
def is_allowed (cfg : CircuitBreakerConfig) (now : ℚ) (s : CircuitState) : Bool :=
  allowed_states (state_read cfg now s)

/-- `CircuitBreaker.record_success`: a success while `"half_open"` closes
the circuit and clears the failure list; otherwise a no-op. -/
def record_success (s : CircuitState) : CircuitState :=
  if s.state = "half_open" then
    { state := "closed", failures := [], last_opened_at := none }
  else s

/-- `CircuitBreaker.record_failure`: append `now` to the failure list,
prune entries with `now - t >= window_s`, then open the circuit if it was
`"half_open"` (failed probe) or if it was `"closed"` and the surviving
count reaches `failure_threshold`. -/
def record_failure (cfg : CircuitBreakerConfig) (now : ℚ) (s : CircuitState) : CircuitState :=
  let failures := (s.failures ++ [now]).filter (fun t => now - t < cfg.window_s)
  if s.state = "half_open" then
    { state := "open", failures := failures, last_opened_at := some now }
  else if s.state = "closed" ∧ cfg.failure_threshold ≤ failures.length then
    { state := "open", failures := failures, last_opened_at := some now }
  else
    { s with failures := failures }

/-- Outcome of the wrapped coroutine inside `CircuitBreaker.execute`. -/
inductive FnResult where
  | ok
  | timeout
  | raised
deriving Repr, DecidableEq

/-- Result of `CircuitBreaker.execute` as observed by the caller. -/
inductive ExecOutcome where
  | circuitOpen
  | timedOut
  | errored
  | succeeded
deriving Repr, DecidableEq

/-- `CircuitBreaker.execute`: reading `is_allowed` may move
open → half_open; if not allowed the call raises `CircuitOpenError`
without touching the wrapped function; otherwise the wrapped outcome
feeds `record_success` / `record_failure`. -/
def execute (cfg : CircuitBreakerConfig) (now : ℚ) (s : CircuitState)
    (fnr : FnResult) : CircuitState × ExecOutcome :=
  let s1 := state_read cfg now s
  if allowed_states s1 = false then
    (s1, .circuitOpen)
  else
    match fnr with
    | .ok => (record_success s1, .succeeded)
    | .timeout => (record_failure cfg now s1, .timedOut)
    | .raised => (record_failure cfg now s1, .errored)

/-- C1: for a provider breaker in the closed state, `record_failure`
appends the current timestamp and prunes timestamps that have left the
rolling window before counting; the circuit transitions to open if and
only if at least `failure_threshold` timestamps survive, and stays closed
otherwise.  Concretely, with threshold 3 and a 300 s window, three
failures within one second open the circuit and the next `execute`
short-circuits with `CircuitOpen`. -/
theorem c1_closed_record_failure_threshold :
    (∀ (cfg : CircuitBreakerConfig) (now : ℚ) (s : CircuitState),
      s.state = "closed" →
        (record_failure cfg now s).failures
            = (s.failures ++ [now]).filter (fun t => now - t < cfg.window_s) ∧
        ((record_failure cfg now s).state = "open" ↔
          cfg.failure_threshold ≤
            ((s.failures ++ [now]).filter (fun t => now - t < cfg.window_s)).length) ∧
        ((record_failure cfg now s).state = "closed" ↔
          ((s.failures ++ [now]).filter (fun t => now - t < cfg.window_s)).length
            < cfg.failure_threshold)) ∧
    ((record_failure tomorrowConfig 1 (record_failure tomorrowConfig (1/2)
        (record_failure tomorrowConfig 0 {}))).state = "open" ∧
      (execute tomorrowConfig 1
        (record_failure tomorrowConfig 1 (record_failure tomorrowConfig (1/2)
          (record_failure tomorrowConfig 0 {}))) .ok).2 = .circuitOpen) := by
  have hhalf : ∀ s : CircuitState, s.state = "closed" → ¬ s.state = "half_open" := by
    intro s hs h
    rw [hs] at h
    exact absurd h (by decide)
  constructor
  · intro cfg now s hs
    by_cases hp : cfg.failure_threshold ≤
        ((s.failures ++ [now]).filter (fun t => now - t < cfg.window_s)).length
    · have he : record_failure cfg now s =
          { state := "open",
            failures := (s.failures ++ [now]).filter (fun t => now - t < cfg.window_s),
            last_opened_at := some now } := by
        simp only [record_failure]
        rw [if_neg (hhalf s hs), if_pos ⟨hs, hp⟩]
      rw [he]
      refine ⟨rfl, ⟨fun _ => hp, fun _ => rfl⟩, ?_, ?_⟩
      · intro h
        exact absurd h (by decide : ¬ ("open" : String) = "closed")
      · intro h
        exact absurd hp (Nat.not_le.mpr h)
    · have he : record_failure cfg now s =
          { s with
            failures := (s.failures ++ [now]).filter (fun t => now - t < cfg.window_s) } := by
        simp only [record_failure]
        rw [if_neg (hhalf s hs), if_neg (fun hc => hp hc.2)]
      rw [he]
      refine ⟨rfl, ⟨?_, ?_⟩, ?_, ?_⟩
      · intro h
        exact absurd (hs.symm.trans h) (by decide)
      · intro h
        exact absurd h hp
      · intro _
        exact Nat.lt_of_not_le hp
      · intro _
        exact hs
  · have h1 : record_failure tomorrowConfig 0 {} =
        { state := "closed", failures := [0], last_opened_at := none } := by
      norm_num [record_failure, tomorrowConfig]
      intro h
      exact absurd h (by decide)
    have h2 : record_failure tomorrowConfig (1/2)
        { state := "closed", failures := [0], last_opened_at := none } =
        { state := "closed", failures := [0, 1/2], last_opened_at := none } := by
      norm_num [record_failure, tomorrowConfig]
      intro h
      exact absurd h (by decide)
    have h3 : record_failure tomorrowConfig 1
        { state := "closed", failures := [0, 1/2], last_opened_at := none } =
        { state := "open", failures := [0, 1/2, 1], last_opened_at := some 1 } := by
      norm_num [record_failure, tomorrowConfig]
    have h4 : state_read tomorrowConfig 1
        { state := "open", failures := [0, 1/2, 1], last_opened_at := some 1 } =
        { state := "open", failures := [0, 1/2, 1], last_opened_at := some 1 } := by
      norm_num [state_read, cooldown_elapsed, tomorrowConfig]
    rw [h1, h2, h3]
    refine ⟨rfl, ?_⟩
    simp only [execute]
    rw [h4, if_pos (by decide)]

/-- C1 witness: the universally quantified part of
`c1_closed_record_failure_threshold` instantiated at a concrete closed
state holding one prior failure. -/
theorem c1_closed_record_failure_threshold_witness :
    (record_failure tomorrowConfig 5
        { state := "closed", failures := [0], last_opened_at := none }).failures
        = (([0] ++ [5]).filter (fun t => (5 : ℚ) - t < tomorrowConfig.window_s)) ∧
    ((record_failure tomorrowConfig 5
        { state := "closed", failures := [0], last_opened_at := none }).state = "open" ↔
      tomorrowConfig.failure_threshold ≤
        (([0] ++ [5]).filter (fun t => (5 : ℚ) - t < tomorrowConfig.window_s)).length) ∧
    ((record_failure tomorrowConfig 5
        { state := "closed", failures := [0], last_opened_at := none }).state = "closed" ↔
      (([0] ++ [5]).filter (fun t => (5 : ℚ) - t < tomorrowConfig.window_s)).length
        < tomorrowConfig.failure_threshold) :=
  c1_closed_record_failure_threshold.1 tomorrowConfig 5
    { state := "closed", failures := [0], last_opened_at := none } rfl

/-- C2: once the circuit opens it stays open (with `is_allowed` false)
while `now - opened_at < cooldown_s`; reading the state yields half_open
exactly when `cooldown_s ≤ now - opened_at`; and `record_success` while
half_open sets the state to closed and clears the failure list. -/
theorem c2_open_cooldown_and_half_open_success :
    (∀ (cfg : CircuitBreakerConfig) (now t0 : ℚ) (s : CircuitState),
      s.state = "open" → s.last_opened_at = some t0 →
        ((state_read cfg now s).state = "half_open" ↔ cfg.cooldown_s ≤ now - t0) ∧
        (now - t0 < cfg.cooldown_s →
          (state_read cfg now s).state = "open" ∧ is_allowed cfg now s = false)) ∧
    (∀ s : CircuitState, s.state = "open" → record_success s = s) ∧
    (∀ (cfg : CircuitBreakerConfig) (now : ℚ) (s : CircuitState),
      s.state = "open" →
        (record_failure cfg now s).state = "open" ∧
        (record_failure cfg now s).last_opened_at = s.last_opened_at) ∧
    (∀ s : CircuitState, s.state = "half_open" →
      record_success s = { state := "closed", failures := [], last_opened_at := none }) := by
  refine ⟨?_, ?_, ?_, ?_⟩
  · intro cfg now t0 s hs h0
    by_cases hc : cfg.cooldown_s ≤ now - t0
    · constructor
      · simp [state_read, cooldown_elapsed, hs, h0, hc]
      · intro hlt
        exact absurd hc (not_le.mpr hlt)
    · constructor
      · simp [state_read, cooldown_elapsed, hs, h0, hc]
      · intro _
        simp [state_read, is_allowed, allowed_states, cooldown_elapsed, hs, h0, hc]
  · intro s hs
    have : ¬ s.state = "half_open" := by
      rw [hs]
      decide
    simp [record_success, this]
  · intro cfg now s hs
    have h1 : ¬ s.state = "half_open" := by
      rw [hs]
      decide
    have h2 : ¬ (s.state = "closed" ∧ cfg.failure_threshold ≤
        ((s.failures ++ [now]).filter (fun t => now - t < cfg.window_s)).length) := by
      intro hc
      rw [hs] at hc
      exact absurd hc.1 (by decide)
    have he : record_failure cfg now s =
        { s with
          failures := (s.failures ++ [now]).filter (fun t => now - t < cfg.window_s) } := by
      simp only [record_failure]
      rw [if_neg h1, if_neg h2]
    rw [he]
    exact ⟨hs, rfl⟩
  · intro s hs
    simp [record_success, hs]

/-- C2 witness: `c2_open_cooldown_and_half_open_success` instantiated at
a circuit opened at time 0, probed at time 100 (before the 120 s
cooldown), and at a half_open state receiving a success. -/
theorem c2_open_cooldown_and_half_open_success_witness :
    (((state_read tomorrowConfig 100
        { state := "open", failures := [0], last_opened_at := some 0 }).state
          = "half_open" ↔ tomorrowConfig.cooldown_s ≤ (100 : ℚ) - 0) ∧
      ((100 : ℚ) - 0 < tomorrowConfig.cooldown_s →
        (state_read tomorrowConfig 100
          { state := "open", failures := [0], last_opened_at := some 0 }).state = "open" ∧
        is_allowed tomorrowConfig 100
          { state := "open", failures := [0], last_opened_at := some 0 } = false)) ∧
    (record_success { state := "open", failures := [0], last_opened_at := some 0 }
      = { state := "open", failures := [0], last_opened_at := some 0 }) ∧
    ((record_failure tomorrowConfig 50
        { state := "open", failures := [0], last_opened_at := some 0 }).state = "open" ∧
      (record_failure tomorrowConfig 50
        { state := "open", failures := [0], last_opened_at := some 0 }).last_opened_at
        = some 0) ∧
    (record_success { state := "half_open", failures := [3, 4], last_opened_at := some 3 }
      = { state := "closed", failures := [], last_opened_at := none }) :=
  ⟨c2_open_cooldown_and_half_open_success.1 tomorrowConfig 100 0
      { state := "open", failures := [0], last_opened_at := some 0 } rfl rfl,
    c2_open_cooldown_and_half_open_success.2.1
      { state := "open", failures := [0], last_opened_at := some 0 } rfl,
    c2_open_cooldown_and_half_open_success.2.2.1 tomorrowConfig 50
      { state := "open", failures := [0], last_opened_at := some 0 } rfl,
    c2_open_cooldown_and_half_open_success.2.2.2
      { state := "half_open", failures := [3, 4], last_opened_at := some 3 } rfl⟩

/- ===================================================================
   § Weather pipeline — api/py/_weather.py
   =================================================================== -/

/-- Dynamic JSON-ish value: number, string, or null (Python `None`). -/
inductive JVal where
  | num : ℚ → JVal
  | str : String → JVal
  | nullv : JVal
deriving Repr, DecidableEq

/-- Python `dict.get(k)` on an association list (absent key → `None`). -/
def jget (vs : List (String × JVal)) (k : String) : JVal :=
  (vs.lookup k).getD .nullv

/-- Python `dict.get(k, d)` with an explicit default. -/
def jgetD (vs : List (String × JVal)) (k : String) (d : JVal) : JVal :=
  (vs.lookup k).getD d

/-- `_tomorrow_code_to_wmo`: Tomorrow.io weather code → WMO code
(`mapping.get(code, 0)`). -/
def tomorrow_code_to_wmo (code : ℚ) : ℚ :=
  if code = 0 then 0 else if code = 1000 then 0
  else if code = 1100 then 1 else if code = 1101 then 2
  else if code = 1102 then 3 else if code = 1001 then 3
  else if code = 2000 then 45 else if code = 2100 then 48
  else if code = 4000 then 51 else if code = 4001 then 61
  else if code = 4200 then 63 else if code = 4201 then 65
  else if code = 5000 then 71 else if code = 5001 then 73
  else if code = 5100 then 75 else if code = 5101 then 77
  else if code = 6000 then 56 else if code = 6001 then 66
  else if code = 6200 then 67 else if code = 6201 then 67
  else if code = 7000 then 77 else if code = 7101 then 85
  else if code = 7102 then 86 else if code = 8000 then 95
  else 0

/-- The WMO mapping applied to a dynamic value (a non-numeric key misses
every entry of the Python dict, so `mapping.get` yields the default 0). -/
def wmo_of_jval (v : JVal) : JVal :=
  match v with
  | .num q => .num (tomorrow_code_to_wmo q)
  | _ => .num 0

/-- One entry of `raw["timelines"]["hourly"|"daily"]`: `h.get("time", "")`
pre-extracted, plus the `h.get("values", {})` dictionary. -/
structure TomorrowEntry where
  time : String := ""
  values : List (String × JVal) := []
deriving Repr, DecidableEq

/-- The `hourly` arrays of the normalised weather shape. -/
structure HourlyArrays where
  time : List JVal := []
  temperature_2m : List JVal := []
  relative_humidity_2m : List JVal := []
  apparent_temperature : List JVal := []
  precipitation : List JVal := []
  weather_code : List JVal := []
  wind_speed_10m : List JVal := []
  wind_direction_10m : List JVal := []
  wind_gusts_10m : List JVal := []
  surface_pressure : List JVal := []
  cloud_cover : List JVal := []
  uv_index : List JVal := []
deriving Repr, DecidableEq

/-- The `daily` arrays of the normalised weather shape. -/
structure DailyArrays where
  time : List JVal := []
  weather_code : List JVal := []
  temperature_2m_max : List JVal := []
  temperature_2m_min : List JVal := []
  apparent_temperature_max : List JVal := []
  apparent_temperature_min : List JVal := []
  precipitation_sum : List JVal := []
  precipitation_probability_max : List JVal := []
  wind_speed_10m_max : List JVal := []
  wind_gusts_10m_max : List JVal := []
  wind_direction_10m_dominant : List JVal := []
  uv_index_max : List JVal := []
  sunrise : List JVal := []
  sunset : List JVal := []
deriving Repr, DecidableEq

/-- The hourly-array construction loop of `_normalize_tomorrow`:
`for h in hourly_raw[:24]: ... append(...)` for each of the 12 arrays. -/
def normalize_tomorrow_hourly (hourly_raw : List TomorrowEntry) : HourlyArrays :=
  let hs := hourly_raw.take 24
  { time := hs.map (fun h => .str h.time),
    temperature_2m := hs.map (fun h => jget h.values "temperature"),
    relative_humidity_2m := hs.map (fun h => jget h.values "humidity"),
    apparent_temperature := hs.map (fun h => jget h.values "temperatureApparent"),
    precipitation := hs.map (fun h => jgetD h.values "precipitationIntensity" (.num 0)),
    weather_code := hs.map (fun h => wmo_of_jval (jgetD h.values "weatherCode" (.num 0))),
    wind_speed_10m := hs.map (fun h => jget h.values "windSpeed"),
    wind_direction_10m := hs.map (fun h => jget h.values "windDirection"),
    wind_gusts_10m := hs.map (fun h => jget h.values "windGust"),
    surface_pressure := hs.map (fun h => jget h.values "pressureSurfaceLevel"),
    cloud_cover := hs.map (fun h => jget h.values "cloudCover"),
    uv_index := hs.map (fun h => jget h.values "uvIndex") }

/-- The daily-array construction loop of `_normalize_tomorrow`:
`for d in daily_raw[:7]: ... append(...)` for each of the 14 arrays. -/
def normalize_tomorrow_daily (daily_raw : List TomorrowEntry) : DailyArrays :=
  let ds := daily_raw.take 7
  { time := ds.map (fun d => .str d.time),
    weather_code := ds.map (fun d => wmo_of_jval (jgetD d.values "weatherCodeMax" (.num 0))),
    temperature_2m_max := ds.map (fun d => jget d.values "temperatureMax"),
    temperature_2m_min := ds.map (fun d => jget d.values "temperatureMin"),
    apparent_temperature_max := ds.map (fun d => jget d.values "temperatureApparentMax"),
    apparent_temperature_min := ds.map (fun d => jget d.values "temperatureApparentMin"),
    precipitation_sum := ds.map (fun d => jgetD d.values "precipitationIntensityMax" (.num 0)),
    precipitation_probability_max :=
      ds.map (fun d => jgetD d.values "precipitationProbabilityMax" (.num 0)),
    wind_speed_10m_max := ds.map (fun d => jget d.values "windSpeedMax"),
    wind_gusts_10m_max := ds.map (fun d => jget d.values "windGustMax"),
    wind_direction_10m_dominant := ds.map (fun d => jget d.values "windDirectionAvg"),
    uv_index_max := ds.map (fun d => jget d.values "uvIndexMax"),
    sunrise := ds.map (fun d => .str (match jgetD d.values "sunriseTime" (.str "") with
      | .str s => s
      | _ => "")),
    sunset := ds.map (fun d => .str (match jgetD d.values "sunsetTime" (.str "") with
      | .str s => s
      | _ => "")) }

/-- `_normalize_tomorrow`: current from first hourly entry. -/
def tomorrow_current (hourly_raw : List TomorrowEntry) : List (String × JVal) :=
  match hourly_raw with
  | [] => []
  | first :: _ =>
    [("time", .str first.time),
     ("temperature_2m", jget first.values "temperature"),
     ("relative_humidity_2m", jget first.values "humidity"),
     ("apparent_temperature", jget first.values "temperatureApparent"),
     ("precipitation", jgetD first.values "precipitationIntensity" (.num 0)),
     ("weather_code", wmo_of_jval (jgetD first.values "weatherCode" (.num 0))),
     ("wind_speed_10m", jget first.values "windSpeed"),
     ("wind_direction_10m", jget first.values "windDirection"),
     ("wind_gusts_10m", jget first.values "windGust"),
     ("surface_pressure", jget first.values "pressureSurfaceLevel"),
     ("cloud_cover", jget first.values "cloudCover"),
     ("uv_index", jget first.values "uvIndex")]

/-- `_normalize_tomorrow`: insights from the first daily entry with
`None` fields removed; an empty dict becomes `None`. -/
def tomorrow_insights (daily_raw : List TomorrowEntry) : Option (List (String × JVal)) :=
  let ins :=
    match daily_raw with
    | [] => []
    | d0 :: _ =>
      ([("heatStressIndex", jget d0.values "heatIndexMax"),
        ("thunderstormProbability", jget d0.values "thunderstormProbability"),
        ("uvHealthConcern", jget d0.values "uvHealthConcernMax"),
        ("visibility", jget d0.values "visibilityAvg"),
        ("windSpeed", jget d0.values "windSpeedMax"),
        ("windGust", jget d0.values "windGustMax"),
        ("dewPoint", jget d0.values "dewPointAvg"),
        ("gdd10To30", jget d0.values "gdd10To30"),
        ("evapotranspiration", jget d0.values "evapotranspirationAvg"),
        ("moonPhase", jget d0.values "moonPhase"),
        ("cloudBase", jget d0.values "cloudBaseAvg"),
        ("cloudCeiling", jget d0.values "cloudCeilingAvg"),
        ("precipitationType", jget d0.values "precipitationTypeMax")
       ].filter (fun kv => kv.2 ≠ JVal.nullv))
  if ins = [] then none else some ins

/-- Result of `_normalize_tomorrow` / `_create_fallback_weather`: the
normalised weather document with typed hourly/daily arrays. -/
structure WeatherDoc where
  current : List (String × JVal)
  hourly : HourlyArrays
  daily : DailyArrays
  insights : Option (List (String × JVal))
deriving Repr, DecidableEq

/-- `_normalize_tomorrow` assembled from its parts. -/
def normalize_tomorrow (hourly_raw daily_raw : List TomorrowEntry) : WeatherDoc :=
  { current := tomorrow_current hourly_raw,
    hourly := normalize_tomorrow_hourly hourly_raw,
    daily := normalize_tomorrow_daily daily_raw,
    insights := tomorrow_insights daily_raw }

/-- The parsed JSON body of an Open-Meteo response:
`data.get("current", {})`, `data.get("hourly", {})`,
`data.get("daily", {})` as generic objects (arrays untyped). -/
structure OpenMeteoData where
  current : List (String × JVal) := []
  hourly : List (String × List JVal) := []
  daily : List (String × List JVal) := []
deriving Repr, DecidableEq

/-- Result shape of `_fetch_open_meteo` after a 200 response: generic
pass-through of the provider's `hourly`/`daily` objects. -/
structure OpenMeteoDoc where
  current : List (String × JVal)
  hourly : List (String × List JVal)
  daily : List (String × List JVal)
  insights : Option (List (String × JVal))
deriving Repr, DecidableEq

/-- The normalisation part of `_fetch_open_meteo`: synthesises minimal
insights from `current.wind_speed_10m` / `current.wind_gusts_10m` and
passes `hourly` and `daily` through unchanged. -/
def fetch_open_meteo_normalize (data : OpenMeteoData) : OpenMeteoDoc :=
  let ins :=
    (if jget data.current "wind_speed_10m" ≠ JVal.nullv then
      [("windSpeed", jget data.current "wind_speed_10m")] else []) ++
    (if jget data.current "wind_gusts_10m" ≠ JVal.nullv then
      [("windGust", jget data.current "wind_gusts_10m")] else [])
  { current := data.current,
    hourly := data.hourly,
    daily := data.daily,
    insights := if ins = [] then none else some ins }

/-- Banker's rounding to an integer (Python `round` ties-to-even). -/
def bround (q : ℚ) : ℤ :=
  let f := ⌊q⌋
  let r := q - (f : ℚ)
  if r < 1/2 then f
  else if 1/2 < r then f + 1
  else if 2 ∣ f then f else f + 1

/-- Python `round(x, 1)`: round to one decimal place, ties to even. -/
def round1 (q : ℚ) : ℚ := (bround (q * 10) : ℚ) / 10

/-- `_create_fallback_weather`: seasonal synthesis.  `month` is the
current UTC month, `elevation` the resolved elevation; the ISO timestamp
renderers stand for `datetime.now(...)` formatting (the environment). -/
def create_fallback_weather (month : ℕ) (elevation : ℤ) (isoNow : String)
    (isoHour : ℕ → String) (isoDay : ℕ → String) : WeatherDoc :=
  let tc : ℚ × ℚ :=
    if month ∈ ([11, 12, 1, 2, 3] : List ℕ) then (28, 61)
    else if month ∈ ([4, 5] : List ℕ) then (22, 2)
    else if month ∈ ([6, 7, 8] : List ℕ) then (18, 0)
    else (32, 0)
  let elevation_adj : ℚ := ((max 0 (elevation - 1000) : ℤ) : ℚ) * 6 / 1000
  let temp : ℚ := round1 (tc.1 - elevation_adj)
  let code : ℚ := tc.2
  { current :=
      [("time", .str isoNow),
       ("temperature_2m", .num temp),
       ("relative_humidity_2m", .num 60),
       ("apparent_temperature", .num (temp - 1)),
       ("precipitation", .num 0),
       ("weather_code", .num code),
       ("wind_speed_10m", .num 8),
       ("wind_direction_10m", .num 180),
       ("wind_gusts_10m", .num 15),
       ("surface_pressure", .num 1013),
       ("cloud_cover", .num 30)],
    hourly :=
      { time := (List.range 24).map (fun i => .str (isoHour i)),
        temperature_2m := List.replicate 24 (.num temp),
        relative_humidity_2m := List.replicate 24 (.num 60),
        apparent_temperature := List.replicate 24 (.num (temp - 1)),
        precipitation := List.replicate 24 (.num 0),
        weather_code := List.replicate 24 (.num code),
        wind_speed_10m := List.replicate 24 (.num 8),
        wind_direction_10m := List.replicate 24 (.num 180),
        wind_gusts_10m := List.replicate 24 (.num 15),
        surface_pressure := List.replicate 24 (.num 1013),
        cloud_cover := List.replicate 24 (.num 30),
        uv_index := List.replicate 24 (.num 5) },
    daily :=
      { time := (List.range 7).map (fun i => .str (isoDay i)),
        weather_code := List.replicate 7 (.num code),
        temperature_2m_max := List.replicate 7 (.num (temp + 5)),
        temperature_2m_min := List.replicate 7 (.num (temp - 8)),
        apparent_temperature_max := List.replicate 7 (.num (temp + 4)),
        apparent_temperature_min := List.replicate 7 (.num (temp - 9)),
        precipitation_sum := List.replicate 7 (.num 0),
        precipitation_probability_max := List.replicate 7 (.num 0),
        wind_speed_10m_max := List.replicate 7 (.num 15),
        wind_gusts_10m_max := List.replicate 7 (.num 25),
        wind_direction_10m_dominant := List.replicate 7 (.num 180),
        uv_index_max := List.replicate 7 (.num 7),
        sunrise := List.replicate 7 (.str "06:00"),
        sunset := List.replicate 7 (.str "18:00") },
    insights := none }

/-- The lengths of the 12 hourly arrays. -/
def hourly_lengths (h : HourlyArrays) : List ℕ :=
  [h.time.length, h.temperature_2m.length, h.relative_humidity_2m.length,
   h.apparent_temperature.length, h.precipitation.length, h.weather_code.length,
   h.wind_speed_10m.length, h.wind_direction_10m.length, h.wind_gusts_10m.length,
   h.surface_pressure.length, h.cloud_cover.length, h.uv_index.length]

/-- The lengths of the 14 daily arrays. -/
def daily_lengths (d : DailyArrays) : List ℕ :=
  [d.time.length, d.weather_code.length, d.temperature_2m_max.length,
   d.temperature_2m_min.length, d.apparent_temperature_max.length,
   d.apparent_temperature_min.length, d.precipitation_sum.length,
   d.precipitation_probability_max.length, d.wind_speed_10m_max.length,
   d.wind_gusts_10m_max.length, d.wind_direction_10m_dominant.length,
   d.uv_index_max.length, d.sunrise.length, d.sunset.length]

/-- The claimed array bound applied to a generic hourly object. -/
def hourly_caps_ok (h : List (String × List JVal)) : Bool :=
  h.all (fun kv => kv.2.length ≤ 24)

/-- The claimed array bound applied to a generic daily object. -/
def daily_caps_ok (d : List (String × List JVal)) : Bool :=
  d.all (fun kv => kv.2.length ≤ 7)

/-- An Open-Meteo body whose hourly object holds a 25-element array (the
live API returns 168 = 7 × 24 hourly entries for `forecast_days=7`). -/
def exOpenMeteoData : OpenMeteoData :=
  { current := [], hourly := [("time", List.replicate 25 JVal.nullv)], daily := [] }

/-- C3 counterexample: the Open-Meteo step passes the provider's arrays
through unchanged, so a body with a 25-element hourly array yields a
response whose hourly section violates the claimed ≤ 24 bound. -/
theorem c3_hourly_cap_counterexample :
    hourly_caps_ok (fetch_open_meteo_normalize exOpenMeteoData).hourly = false := by
  decide

/-- C3 (amended): the Tomorrow.io normalisation caps every hourly array
at 24 entries and every daily array at 7; the seasonal synthesis fills
arrays of exactly 24 and 7; but the Open-Meteo step returns the
provider's `hourly` and `daily` objects unchanged, so its array lengths
are whatever the provider sent. -/
theorem c3_array_caps_amended :
    (∀ hourly_raw daily_raw : List TomorrowEntry,
      (∀ n ∈ hourly_lengths (normalize_tomorrow hourly_raw daily_raw).hourly, n ≤ 24) ∧
      (∀ n ∈ daily_lengths (normalize_tomorrow hourly_raw daily_raw).daily, n ≤ 7)) ∧
    (∀ (month : ℕ) (elevation : ℤ) (isoNow : String) (isoHour isoDay : ℕ → String),
      (∀ n ∈ hourly_lengths
          (create_fallback_weather month elevation isoNow isoHour isoDay).hourly, n = 24) ∧
      (∀ n ∈ daily_lengths
          (create_fallback_weather month elevation isoNow isoHour isoDay).daily, n = 7)) ∧
    (∀ data : OpenMeteoData,
      (fetch_open_meteo_normalize data).hourly = data.hourly ∧
      (fetch_open_meteo_normalize data).daily = data.daily) := by
  refine ⟨?_, ?_, ?_⟩
  · intro hourly_raw daily_raw
    constructor
    · intro n hn
      simp [normalize_tomorrow, normalize_tomorrow_hourly, hourly_lengths] at hn
      omega
    · intro n hn
      simp [normalize_tomorrow, normalize_tomorrow_daily, daily_lengths] at hn
      omega
  · intro month elevation isoNow isoHour isoDay
    constructor
    · intro n hn
      simp [create_fallback_weather, hourly_lengths] at hn
      omega
    · intro n hn
      simp [create_fallback_weather, daily_lengths] at hn
      omega
  · intro data
    exact ⟨rfl, rfl⟩

/-- C3 witness: the amended theorem instantiated at empty Tomorrow.io
timelines, a concrete seasonal synthesis, and the counterexample
Open-Meteo body. -/
theorem c3_array_caps_amended_witness :
    (0 : ℕ) ≤ 24 ∧ (0 : ℕ) ≤ 7 ∧ (24 : ℕ) = 24 ∧ (7 : ℕ) = 7 ∧
    (fetch_open_meteo_normalize exOpenMeteoData).hourly = exOpenMeteoData.hourly ∧
    (fetch_open_meteo_normalize exOpenMeteoData).daily = exOpenMeteoData.daily :=
  ⟨(c3_array_caps_amended.1 [] []).1 0 (by decide),
   (c3_array_caps_amended.1 [] []).2 0 (by decide),
   (c3_array_caps_amended.2.1 1 1200 "" (fun _ => "") (fun _ => "")).1 24 (by decide),
   (c3_array_caps_amended.2.1 1 1200 "" (fun _ => "") (fun _ => "")).2 7 (by decide),
   (c3_array_caps_amended.2.2 exOpenMeteoData).1,
   (c3_array_caps_amended.2.2 exOpenMeteoData).2⟩

/- ===================================================================
   § AI summary pipeline — api/py/_ai.py
   =================================================================== -/

/-- `TIER_1_SLUGS`: the ten high-traffic location slugs. -/
def TIER_1_SLUGS : List String :=
  ["harare", "bulawayo", "mutare", "gweru", "masvingo",
   "kwekwe", "kadoma", "marondera", "chinhoyi", "victoria-falls"]

/-- `TIER_2_TAGS`: tags that place a location in tier 2. -/
def TIER_2_TAGS : List String := ["farming", "mining", "education", "border"]

/-- `TTL_TIER_1` (30 min). -/
def TTL_TIER_1 : ℕ := 1800

/-- `TTL_TIER_2` (60 min). -/
def TTL_TIER_2 : ℕ := 3600

/-- `TTL_TIER_3` (120 min). -/
def TTL_TIER_3 : ℕ := 7200

/-- `_get_ttl(slug, tags)`: tier-1 slug → 1800 s; otherwise any tag in
`TIER_2_TAGS` → 3600 s; otherwise 7200 s. -/
def get_ttl (slug : String) (tags : List String) : ℕ :=
  if slug ∈ TIER_1_SLUGS then TTL_TIER_1
  else if tags.any (fun t => decide (t ∈ TIER_2_TAGS)) then TTL_TIER_2
  else TTL_TIER_3

/-- An `ai_summaries` document as written by `_set_cached_summary`. -/
structure AISummaryEntry where
  insight : String
  generatedAt : ℚ
  weatherSnapshot : List (String × JVal)
  expiresAt : ℚ
deriving Repr, DecidableEq

/-- `_set_cached_summary`: upsert with `generatedAt = now` and
`expiresAt = now + timedelta(seconds=_get_ttl(slug, tags))`. -/
def set_cached_summary (slug insight : String) (snapshot : List (String × JVal))
    (tags : List String) (now : ℚ) : AISummaryEntry :=
  { insight := insight,
    generatedAt := now,
    weatherSnapshot := snapshot,
    expiresAt := now + (get_ttl slug tags : ℚ) }

/-- C6: every AI-summary cache write has `expiresAt - generatedAt`
exactly 1800 s for a tier-1 slug, else exactly 3600 s when the tags
intersect {farming, mining, education, border}, else exactly 7200 s. -/
theorem c6_summary_ttl_tiers :
    ∀ (slug insight : String) (snapshot : List (String × JVal))
      (tags : List String) (now : ℚ),
      (set_cached_summary slug insight snapshot tags now).expiresAt
          - (set_cached_summary slug insight snapshot tags now).generatedAt =
        (if slug ∈ TIER_1_SLUGS then 1800
         else if ∃ t ∈ tags, t ∈ TIER_2_TAGS then 3600
         else 7200) := by
  intro slug insight snapshot tags now
  simp only [set_cached_summary, add_sub_cancel_left, get_ttl,
    TTL_TIER_1, TTL_TIER_2, TTL_TIER_3]
  by_cases h1 : slug ∈ TIER_1_SLUGS
  · simp [h1]
  · by_cases h2 : ∃ t ∈ tags, t ∈ TIER_2_TAGS
    · simp [h1, h2, List.any_eq_true]
    · simp [h1, h2, List.any_eq_true]

/- ===================================================================
   § Reports subsystem — api/py/_reports.py
   =================================================================== -/

/-- Python `str.strip()` at the character level (used instead of the
built-in `String.trim`, whose byte-position implementation does not
reduce in the kernel). -/
def strip_chars (cs : List Char) : List Char :=
  ((cs.dropWhile Char.isWhitespace).reverse.dropWhile Char.isWhitespace).reverse

/-- Python `s.strip()`. -/
def py_strip (s : String) : String := ⟨strip_chars s.data⟩

/-- `split("\n")` at the character level. -/
def split_nl (cs : List Char) : List (List Char) :=
  cs.foldr
    (fun c acc =>
      if c = '\n' then [] :: acc
      else
        match acc with
        | [] => [[c]]
        | h :: t => (c :: h) :: t)
    [[]]

/-- Python `s.split("\n")`. -/
def py_split_nl (s : String) : List String := (split_nl s.data).map (fun cs => ⟨cs⟩)

/-- Python `s.lstrip(set)`: drop leading characters found in `set`. -/
def py_lstrip (set s : String) : String :=
  ⟨s.data.dropWhile (fun c => set.data.contains c)⟩

/-- Python `s and s[0].isdigit()`: true when the string is non-empty and
its first character is a digit. -/
def starts_with_digit (s : String) : Bool :=
  match s.data with
  | [] => false
  | c :: _ => c.isDigit

/-- The question parser inside `clarify_report`: lines of the stripped
response whose stripped text begins with a digit, each with leading
digits/dots removed and re-stripped. -/
def parse_questions (questions_text : String) : List String :=
  ((py_split_nl (py_strip questions_text)).filter
      (fun line => starts_with_digit (py_strip line))).map
    (fun line => py_strip (py_lstrip "0123456789." (py_strip line)))

/-- `_fallback_questions`: the hardcoded per-type clarification table. -/
def fallback_questions (report_type : String) : List String :=
  if report_type = "light-rain" then
    ["Is it a drizzle or steady light rain?", "Can you see across the street clearly?"]
  else if report_type = "heavy-rain" then
    ["Can you hear the rain hitting the roof loudly?", "Is water pooling on the ground?"]
  else if report_type = "thunderstorm" then
    ["How close are the lightning flashes?", "Is there hail or just rain?"]
  else if report_type = "hail" then
    ["How large are the hailstones — pea, marble, or larger?", "Is the hail causing damage?"]
  else if report_type = "flooding" then
    ["How deep is the water on the road?", "Are vehicles able to pass?"]
  else if report_type = "strong-wind" then
    ["Are tree branches bending or breaking?", "Is it hard to walk against the wind?"]
  else if report_type = "clear-skies" then
    ["Is the sun fully visible?", "Are there any clouds at all?"]
  else if report_type = "fog" then
    ["How far can you see ahead?", "Is the fog getting thicker or thinner?"]
  else if report_type = "dust" then
    ["Can you taste the dust in the air?", "How far can you see?"]
  else if report_type = "frost" then
    ["Is the frost visible on surfaces?", "Are your car windows frosted over?"]
  else
    ["How severe would you rate it?", "Is it affecting your plans?"]

/-- The tail of `clarify_report` once the LLM has answered:
`questions[:2] if questions else _fallback_questions(reportType)`. -/
def clarify_parse_result (questions_text report_type : String) : List String :=
  let questions := parse_questions questions_text
  if questions ≠ [] then questions.take 2 else fallback_questions report_type

/-- C9 counterexample: an LLM response with exactly one digit-led line
parses to a single question — fewer than two — yet the code returns that
single question rather than the hardcoded fallback table. -/
theorem c9_single_question_counterexample :
    parse_questions "1. Is the hail causing damage right now?"
        = ["Is the hail causing damage right now?"] ∧
    (parse_questions "1. Is the hail causing damage right now?").length < 2 ∧
    clarify_parse_result "1. Is the hail causing damage right now?" "hail"
        = ["Is the hail causing damage right now?"] ∧
    clarify_parse_result "1. Is the hail causing damage right now?" "hail"
        ≠ fallback_questions "hail" := by
  refine ⟨by decide, by decide, by decide, by decide⟩

/-- C9 (amended): the response is parsed by taking the lines that begin
with a digit; the hardcoded per-type fallback questions are returned
only when no question at all is parsed this way, and otherwise the
first two parsed questions are returned. -/
theorem c9_clarify_fallback_amended :
    ∀ (questions_text report_type : String),
      (parse_questions questions_text = [] →
        clarify_parse_result questions_text report_type
          = fallback_questions report_type) ∧
      (parse_questions questions_text ≠ [] →
        clarify_parse_result questions_text report_type
          = (parse_questions questions_text).take 2) := by
  intro questions_text report_type
  constructor
  · intro h
    simp [clarify_parse_result, h]
  · intro h
    simp [clarify_parse_result, h]

/-- C9 witness: the amended theorem instantiated at a response with no
digit-led line (fallback used) and at a two-question response. -/
theorem c9_clarify_fallback_amended_witness :
    (clarify_parse_result "No numbered lines here." "fog"
        = fallback_questions "fog") ∧
    (clarify_parse_result "1. How close?\n2. Any hail?" "thunderstorm"
        = (parse_questions "1. How close?\n2. Any hail?").take 2) :=
  ⟨(c9_clarify_fallback_amended "No numbered lines here." "fog").1 (by decide),
   (c9_clarify_fallback_amended "1. How close?\n2. Any hail?" "thunderstorm").2 (by decide)⟩

/-- A `weather_reports` document restricted to the fields touched by
`upvote_report`. -/
structure Report where
  upvotes : ℤ := 0
  upvotedBy : List String := []
deriving Repr, DecidableEq

/-- `upvote_report`: the atomic update with filter
`{_id: oid, upvotedBy: {$ne: ip_hash}}` and mutation
`{$inc: {upvotes: 1}, $push: {upvotedBy: ip_hash}}`.  The Bool is the
`upvoted` field of the response (`modified_count == 0` → `false`). -/
def upvote_report (r : Report) (ip_hash : String) : Report × Bool :=
  if ip_hash ∈ r.upvotedBy then (r, false)
  else ({ upvotes := r.upvotes + 1, upvotedBy := r.upvotedBy ++ [ip_hash] }, true)

/-- A sequence of `n` upvote requests on the same report by the same
client identity, collecting the `upvoted` responses in order. -/
def upvote_requests (r : Report) (ip_hash : String) : ℕ → Report × List Bool
  | 0 => (r, [])
  | n + 1 =>
    let p := upvote_report r ip_hash
    let rest := upvote_requests p.1 ip_hash n
    (rest.1, p.2 :: rest.2)

/-- Once the identity is present in `upvotedBy`, every further upvote
request is a no-op answering `false`. -/
theorem upvote_requests_absorbed (ip_hash : String) (n : ℕ) :
    ∀ r : Report, ip_hash ∈ r.upvotedBy →
      upvote_requests r ip_hash n = (r, List.replicate n false) := by
  induction n with
  | zero => intro r _; rfl
  | succ n ih =>
    intro r h
    simp [upvote_requests, upvote_report, h, ih r h, List.replicate_succ]

/-- C7: for any run of upvote requests on one report by one identity not
yet present in `upvotedBy`, the first response is `upvoted: true`, every
later response is `upvoted: false`, the identity ends up exactly once in
`upvotedBy`, and the upvote counter grows by exactly one in total. -/
theorem c7_upvote_dedup :
    ∀ (r : Report) (ip_hash : String) (n : ℕ),
      ip_hash ∉ r.upvotedBy →
        (upvote_requests r ip_hash (n + 1)).2 = true :: List.replicate n false ∧
        (upvote_requests r ip_hash (n + 1)).1.upvotes = r.upvotes + 1 ∧
        List.count ip_hash (upvote_requests r ip_hash (n + 1)).1.upvotedBy = 1 := by
  intro r ip_hash n h
  have hstep : upvote_report r ip_hash =
      ({ upvotes := r.upvotes + 1, upvotedBy := r.upvotedBy ++ [ip_hash] }, true) := by
    simp [upvote_report, h]
  have hmem : ip_hash ∈ r.upvotedBy ++ [ip_hash] := by simp
  have habs := upvote_requests_absorbed ip_hash n
      { upvotes := r.upvotes + 1, upvotedBy := r.upvotedBy ++ [ip_hash] } hmem
  have hcount : List.count ip_hash r.upvotedBy = 0 := List.count_eq_zero.mpr h
  refine ⟨?_, ?_, ?_⟩ <;>
    simp [upvote_requests, hstep, habs, List.count_append, hcount]

/-- C7 witness: `c7_upvote_dedup` at a fresh report and three requests. -/
theorem c7_upvote_dedup_witness :
    (upvote_requests { upvotes := 0, upvotedBy := [] } "a1b2" (2 + 1)).2
        = true :: List.replicate 2 false ∧
    (upvote_requests { upvotes := 0, upvotedBy := [] } "a1b2" (2 + 1)).1.upvotes
        = 0 + 1 ∧
    List.count "a1b2"
      (upvote_requests { upvotes := 0, upvotedBy := [] } "a1b2" (2 + 1)).1.upvotedBy = 1 :=
  c7_upvote_dedup { upvotes := 0, upvotedBy := [] } "a1b2" 2 (by decide)

/-- A stored `weather_reports` document restricted to the fields the
`GET /reports` query filter reads. -/
structure StoredReport where
  locationSlug : String
  reportedAt : ℚ
  expiresAt : ℚ
deriving Repr, DecidableEq

/-- The clamp `hours = min(max(hours, 1), 72)` in `list_reports`. -/
def clamp_hours (hours : ℤ) : ℤ := min (max hours 1) 72

/-- `list_reports`: 400 only when `location` is empty; otherwise clamp
`hours`, filter the collection by slug, `reportedAt >= now - hours` and
`expiresAt > now`, sort by `reportedAt` descending, and take 20. -/
def list_reports (db : List StoredReport) (location : String) (hours : ℤ)
    (now : ℚ) : Except String (List StoredReport) :=
  if location = "" then .error "Missing location parameter"
  else
    let h := clamp_hours hours
    let cutoff := now - (h : ℚ) * 3600
    .ok ((((db.filter (fun r =>
        decide (r.locationSlug = location) &&
        decide (cutoff ≤ r.reportedAt) &&
        decide (now < r.expiresAt)))).mergeSort
          (fun a b => decide (b.reportedAt ≤ a.reportedAt))).take 20)

/-- C10: `GET /reports` accepts any integer `hours` — out-of-range
values are clamped into [1, 72] (below 1 → 1, above 72 → 72, in-range
unchanged) before the time-window filter, and the endpoint succeeds. -/
theorem c10_hours_clamped_no_error :
    ∀ (db : List StoredReport) (location : String) (hours : ℤ) (now : ℚ),
      location ≠ "" →
        (∃ rs, list_reports db location hours now = .ok rs) ∧
        1 ≤ clamp_hours hours ∧ clamp_hours hours ≤ 72 ∧
        (hours < 1 → clamp_hours hours = 1) ∧
        (72 < hours → clamp_hours hours = 72) ∧
        (1 ≤ hours → hours ≤ 72 → clamp_hours hours = hours) ∧
        list_reports db location hours now
          = list_reports db location (clamp_hours hours) now := by
  intro db location hours now hloc
  have hidem : clamp_hours (clamp_hours hours) = clamp_hours hours := by
    simp only [clamp_hours]
    omega
  have hok : list_reports db location hours now =
      .ok ((((db.filter (fun r =>
          decide (r.locationSlug = location) &&
          decide (now - (clamp_hours hours : ℚ) * 3600 ≤ r.reportedAt) &&
          decide (now < r.expiresAt)))).mergeSort
            (fun a b => decide (b.reportedAt ≤ a.reportedAt))).take 20) := by
    simp only [list_reports, if_neg hloc]
  refine ⟨⟨_, hok⟩, ?_, ?_, ?_, ?_, ?_, ?_⟩
  · simp only [clamp_hours]; omega
  · simp only [clamp_hours]; omega
  · intro h; simp only [clamp_hours]; omega
  · intro h; simp only [clamp_hours]; omega
  · intro h1 h2; simp only [clamp_hours]; omega
  · simp only [list_reports, if_neg hloc, hidem]

/-- C10 witness: `c10_hours_clamped_no_error` at an empty collection,
location "harare", `hours = 100` (clamped to 72). -/
theorem c10_hours_clamped_no_error_witness :
    (∃ rs, list_reports [] "harare" 100 0 = .ok rs) ∧
    1 ≤ clamp_hours 100 ∧ clamp_hours 100 ≤ 72 ∧
    ((100 : ℤ) < 1 → clamp_hours 100 = 1) ∧
    ((72 : ℤ) < 100 → clamp_hours 100 = 72) ∧
    ((1 : ℤ) ≤ 100 → (100 : ℤ) ≤ 72 → clamp_hours 100 = 100) ∧
    list_reports [] "harare" 100 0 = list_reports [] "harare" (clamp_hours 100) 0 :=
  c10_hours_clamped_no_error [] "harare" 100 0 (by decide)

/- ===================================================================
   § Chat orchestrator — api/py/_chat.py
   =================================================================== -/

/-- `MAX_HISTORY = 10`. -/
def MAX_HISTORY : ℕ := 10

/-- `MAX_MESSAGE_LEN = 2000`. -/
def MAX_MESSAGE_LEN : ℕ := 2000

/-- Python `s[:n]` (slice of the first `n` characters). -/
def py_take (n : ℕ) (s : String) : String := ⟨s.data.take n⟩

/-- A `ChatMessage` of the request body. -/
structure ChatMessage where
  role : String
  content : String
deriving Repr, DecidableEq

/-- The history truncation in `chat`:
`[ChatMessage(role=m.role, content=m.content[:MAX_MESSAGE_LEN])
  for m in body.history[:MAX_HISTORY]]`. -/
def truncate_history (history : List ChatMessage) : List ChatMessage :=
  (history.take MAX_HISTORY).map
    (fun m => { role := m.role, content := py_take MAX_MESSAGE_LEN m.content })

/-- The `messages` list sent to the LLM: the truncated history followed
by the new user message. -/
def build_messages (history : List ChatMessage) (message : String) : List ChatMessage :=
  truncate_history history ++ [{ role := "user", content := message }]

/-- Modelled from the spec wording of C4 for comparison: the MOST RECENT
10 turns of the history (content trimmed to 2000) followed by the new
user message. -/
def build_messages_spec (history : List ChatMessage) (message : String) : List ChatMessage :=
  (history.drop (history.length - MAX_HISTORY)).map
      (fun m => { role := m.role, content := py_take MAX_MESSAGE_LEN m.content })
    ++ [{ role := "user", content := message }]

/-- An 11-turn history with distinct contents. -/
def exHistory : List ChatMessage :=
  [⟨"user", "m0"⟩, ⟨"assistant", "m1"⟩, ⟨"user", "m2"⟩, ⟨"assistant", "m3"⟩,
   ⟨"user", "m4"⟩, ⟨"assistant", "m5"⟩, ⟨"user", "m6"⟩, ⟨"assistant", "m7"⟩,
   ⟨"user", "m8"⟩, ⟨"assistant", "m9"⟩, ⟨"user", "m10"⟩]

/-- C4 counterexample: on an 11-turn history the code keeps the FIRST 10
turns (`history[:10]`), not the most recent 10 — the conversation sent
to the LLM starts with turn `m0` and omits `m10`, while the claim's
reading starts with `m1`. -/
theorem c4_first_not_recent_counterexample :
    exHistory.length = 11 ∧
    build_messages exHistory "latest" ≠ build_messages_spec exHistory "latest" ∧
    (build_messages exHistory "latest").head? = some ⟨"user", "m0"⟩ ∧
    (build_messages_spec exHistory "latest").head? = some ⟨"assistant", "m1"⟩ ∧
    ⟨"user", "m10"⟩ ∉ build_messages exHistory "latest" := by
  refine ⟨by decide, by decide, by decide, by decide, by decide⟩

/-- C4 (amended): for a history of more than 10 turns, the conversation
sent to the LLM is the FIRST 10 turns of the supplied history, each
content field individually trimmed to 2000 characters, followed by the
new user message. -/
theorem c4_history_truncation_amended :
    ∀ (history : List ChatMessage) (message : String),
      MAX_HISTORY < history.length →
        build_messages history message
          = (history.take MAX_HISTORY).map
              (fun m => { role := m.role, content := py_take MAX_MESSAGE_LEN m.content })
            ++ [{ role := "user", content := message }] ∧
        (truncate_history history).length = MAX_HISTORY ∧
        ((truncate_history history).all
          (fun m => decide (m.content.data.length ≤ MAX_MESSAGE_LEN))) = true := by
  intro history message h
  refine ⟨rfl, ?_, ?_⟩
  · simp [truncate_history]
    omega
  · simp only [truncate_history, List.all_eq_true]
    intro m hm
    simp only [List.mem_map] at hm
    obtain ⟨m0, _, rfl⟩ := hm
    simp [py_take]

/-- C4 witness: the amended theorem at the 11-turn history. -/
theorem c4_history_truncation_amended_witness :
    (build_messages exHistory "latest"
        = (exHistory.take MAX_HISTORY).map
            (fun m => { role := m.role, content := py_take MAX_MESSAGE_LEN m.content })
          ++ [{ role := "user", content := "latest" }]) ∧
    (truncate_history exHistory).length = MAX_HISTORY ∧
    ((truncate_history exHistory).all
      (fun m => decide (m.content.data.length ≤ MAX_MESSAGE_LEN))) = true :=
  c4_history_truncation_amended exHistory "latest" (by decide)

/-- A chat reference `{slug, name, type}`. -/
structure Reference where
  slug : String
  name : String
  type : String
deriving Repr, DecidableEq

/-- One tool-use block as seen by the reference-extraction code: the
`(slug, name)` pairs of the locations returned by `search_locations` or
`list_locations_by_tag` (with `loc.get("name", slug)` already applied),
or the slug argument of a `get_weather` call paired with the name found
by the `locations` lookup (`None` when no document matched). -/
inductive ToolEvent where
  | search (locations : List (String × String))
  | listByTag (locations : List (String × String))
  | getWeather (location_slug : String) (loc_doc_name : Option String)
deriving Repr, DecidableEq

/-- The `for loc in parsed["locations"]` loop shared by the two
location-producing tools: a non-empty slug not yet in `seen_slugs` is
added to it and appended as a `type:"location"` reference. -/
def add_location_refs (acc : List String × List Reference)
    (locations : List (String × String)) : List String × List Reference :=
  locations.foldl
    (fun acc loc =>
      if loc.1 ≠ "" ∧ loc.1 ∉ acc.1 then
        (acc.1 ++ [loc.1], acc.2 ++ [⟨loc.1, loc.2, "location"⟩])
      else acc)
    acc

/-- Reference extraction for one tool-use block (`seen_slugs` is the
first component, `references` the second). -/
def ref_step (acc : List String × List Reference) (ev : ToolEvent) :
    List String × List Reference :=
  match ev with
  | .search locations => add_location_refs acc locations
  | .listByTag locations => add_location_refs acc locations
  | .getWeather slug loc_doc_name =>
    if slug ≠ "" ∧ slug ∉ acc.1 then
      (acc.1 ++ [slug], acc.2 ++ [⟨slug, loc_doc_name.getD slug, "weather"⟩])
    else acc

/-- The references collected over a whole request's tool calls. -/
def collect_references (events : List ToolEvent) : List Reference :=
  (events.foldl ref_step ([], [])).2

/-- Insertion-ordered Python-dict assignment `d[k] = v`: updating an
existing key keeps its position, a new key is appended at the end. -/
def dict_set (d : List (String × Reference)) (k : String) (v : Reference) :
    List (String × Reference) :=
  if d.any (fun kv => kv.1 == k) then
    d.map (fun kv => if kv.1 == k then (k, v) else kv)
  else d ++ [(k, v)]

/-- One step of the final dedup loop: `if ref.slug not in unique_refs or
ref.type == "location": unique_refs[ref.slug] = ref`. -/
def dedup_step (d : List (String × Reference)) (ref : Reference) :
    List (String × Reference) :=
  if (d.any (fun kv => kv.1 == ref.slug)) = false ∨ ref.type = "location" then
    dict_set d ref.slug ref
  else d

/-- The deduplicated reference list `list(unique_refs.values())`. -/
def dedup_references (refs : List Reference) : List Reference :=
  (refs.foldl dedup_step []).map Prod.snd

/-- The `references` field of the chat response:
`list(unique_refs.values())[:5]`. -/
def chat_references (events : List ToolEvent) : List Reference :=
  (dedup_references (collect_references events)).take 5

/-- Replacing the value stored under `k` does not change the key list. -/
theorem map_fst_replace (d : List (String × Reference)) (k : String) (v : Reference) :
    (d.map (fun kv => if kv.1 == k then (k, v) else kv)).map Prod.fst
      = d.map Prod.fst := by
  induction d with
  | nil => rfl
  | cons hd tl ih =>
    simp only [List.map_cons, ih]
    congr 1
    by_cases h : hd.1 == k
    · rw [if_pos h]
      exact (eq_of_beq h).symm
    · rw [if_neg h]

/-- A key that fails the `any` membership probe is not among the keys. -/
theorem not_mem_keys_of_any_false (d : List (String × Reference)) (k : String)
    (h : (d.any (fun kv => kv.1 == k)) = false) : k ∉ d.map Prod.fst := by
  intro hmem
  obtain ⟨kv, hkv, hfst⟩ := List.mem_map.mp hmem
  have := List.any_eq_false.mp h kv hkv
  simp [hfst] at this

/-- The dedup fold keeps its dictionary keys pairwise distinct. -/
theorem dedup_fold_keys_nodup (refs : List Reference) :
    ∀ d : List (String × Reference),
      (d.map Prod.fst).Nodup → ((refs.foldl dedup_step d).map Prod.fst).Nodup := by
  induction refs with
  | nil => intro d h; exact h
  | cons r rest ih =>
    intro d h
    simp only [List.foldl_cons]
    apply ih
    unfold dedup_step
    by_cases hcond : (d.any (fun kv => kv.1 == r.slug)) = false ∨ r.type = "location"
    · rw [if_pos hcond]
      unfold dict_set
      by_cases hany : d.any (fun kv => kv.1 == r.slug)
      · rw [if_pos hany, map_fst_replace]
        exact h
      · rw [if_neg hany]
        have hnot := not_mem_keys_of_any_false d r.slug (Bool.eq_false_iff.mpr hany)
        simp only [List.map_append, List.map_cons, List.map_nil]
        simp [List.nodup_append, h, hnot]
    · rw [if_neg hcond]
      exact h

/-- Every value stored by the dedup fold carries its own key as slug. -/
theorem dedup_fold_snd_slug (refs : List Reference) :
    ∀ d : List (String × Reference),
      (∀ kv ∈ d, (kv.2 : Reference).slug = kv.1) →
      ∀ kv ∈ refs.foldl dedup_step d, (kv.2 : Reference).slug = kv.1 := by
  induction refs with
  | nil => intro d h; exact h
  | cons r rest ih =>
    intro d h
    simp only [List.foldl_cons]
    apply ih
    unfold dedup_step
    by_cases hcond : (d.any (fun kv => kv.1 == r.slug)) = false ∨ r.type = "location"
    · rw [if_pos hcond]
      unfold dict_set
      by_cases hany : d.any (fun kv => kv.1 == r.slug)
      · rw [if_pos hany]
        intro kv hkv
        obtain ⟨kv0, hkv0, hkveq⟩ := List.mem_map.mp hkv
        by_cases hk : kv0.1 == r.slug
        · rw [if_pos hk] at hkveq
          rw [← hkveq]
        · rw [if_neg hk] at hkveq
          rw [← hkveq]
          exact h kv0 hkv0
      · rw [if_neg hany]
        intro kv hkv
        rcases List.mem_append.mp hkv with hold | hnew
        · exact h kv hold
        · rw [List.mem_singleton.mp hnew]
    · rw [if_neg hcond]
      exact h

/-- C5 counterexample: when `get_weather` contributes the slug first,
the `seen_slugs` guard drops the later location-type contribution for
the same slug, so the final reference keeps type `weather` — the claim's
"in either order the final type is location" fails. -/
theorem c5_weather_first_counterexample :
    chat_references [.getWeather "harare" (some "Harare"),
        .search [("harare", "Harare")]]
      = [⟨"harare", "Harare", "weather"⟩] ∧
    (⟨"harare", "Harare", "location"⟩ : Reference)
      ∉ chat_references [.getWeather "harare" (some "Harare"),
          .search [("harare", "Harare")]] := by
  refine ⟨by decide, by decide⟩

/-- C5 (amended): every completed chat response carries at most 5
references with pairwise-distinct slugs; when a location-type tool
contributes a slug before a `get_weather` call for the same slug, the
final entry has type `location`, but in the opposite order the
`seen_slugs` guard keeps the first-contributed `weather` entry. -/
theorem c5_references_dedup_amended :
    (∀ events : List ToolEvent, (chat_references events).length ≤ 5) ∧
    (∀ events : List ToolEvent,
      ((chat_references events).map (fun r => r.slug)).Nodup) ∧
    (∀ (slug name : String) (loc_doc_name : Option String), slug ≠ "" →
      chat_references [.search [(slug, name)], .getWeather slug loc_doc_name]
        = [⟨slug, name, "location"⟩] ∧
      chat_references [.getWeather slug loc_doc_name, .search [(slug, name)]]
        = [⟨slug, loc_doc_name.getD slug, "weather"⟩]) := by
  refine ⟨?_, ?_, ?_⟩
  · intro events
    simp [chat_references, List.length_take]
  · intro events
    have hkeys := dedup_fold_keys_nodup (collect_references events) [] (by simp)
    have hslugs := dedup_fold_snd_slug (collect_references events) [] (by simp)
    have hmapeq :
        ((((collect_references events).foldl dedup_step []).map Prod.snd).map
            (fun r => r.slug))
          = ((collect_references events).foldl dedup_step []).map Prod.fst := by
      rw [List.map_map]
      apply List.map_congr_left
      intro kv hkv
      exact hslugs kv hkv
    have htake :
        (chat_references events).map (fun r => r.slug)
          = ((((collect_references events).foldl dedup_step []).map
              Prod.snd).map (fun r => r.slug)).take 5 := by
      simp [chat_references, dedup_references, List.map_take]
    rw [htake, hmapeq]
    exact hkeys.sublist (List.take_sublist 5 _)
  · intro slug name loc_doc_name hslug
    constructor
    · simp [chat_references, collect_references, ref_step, add_location_refs,
        dedup_references, dedup_step, dict_set, hslug]
    · simp [chat_references, collect_references, ref_step, add_location_refs,
        dedup_references, dedup_step, dict_set, hslug]

/-- C5 witness: the amended theorem at a concrete pair of tool calls for
the slug "harare" in both orders. -/
theorem c5_references_dedup_amended_witness :
    (chat_references [.search [("harare", "Harare")],
        .getWeather "harare" (some "Harare")]).length ≤ 5 ∧
    ((chat_references [.search [("harare", "Harare")],
        .getWeather "harare" (some "Harare")]).map (fun r => r.slug)).Nodup ∧
    (chat_references [.search [("harare", "Harare")],
        .getWeather "harare" (some "Harare")]
      = [⟨"harare", "Harare", "location"⟩] ∧
     chat_references [.getWeather "harare" (some "Harare"),
        .search [("harare", "Harare")]]
      = [⟨"harare", "Harare", "weather"⟩]) :=
  ⟨c5_references_dedup_amended.1
      [.search [("harare", "Harare")], .getWeather "harare" (some "Harare")],
   c5_references_dedup_amended.2.1
      [.search [("harare", "Harare")], .getWeather "harare" (some "Harare")],
   c5_references_dedup_amended.2.2 "harare" "Harare" (some "Harare") (by decide)⟩

/-- A condition of a suitability rule (dictionary defaults applied:
`operator` defaults to `"gt"`, `value` to 0, `level` to `"good"`,
missing/empty `metricTemplate` is `none`). -/
structure SuitCondition where
  field : String := ""
  operator : String := "gt"
  value : ℚ := 0
  level : String := "good"
  label : String := ""
  detail : String := ""
  metricTemplate : Option String := none
deriving Repr, DecidableEq

/-- A rule's fallback rating parts, with the code's `.get` defaults. -/
structure SuitFallback where
  level : String := "good"
  label : String := "Generally suitable"
  detail : String := ""
deriving Repr, DecidableEq

/-- A suitability rule document. -/
structure SuitabilityRule where
  conditions : List SuitCondition := []
  fallback : SuitFallback := {}
deriving Repr, DecidableEq

/-- A rating produced by `_execute_get_activity_advice`; the fallback
branch builds a dict without a `metric` key, modelled as `none`. -/
structure Rating where
  activity : String
  level : String
  label : String
  detail : String
  metric : Option String
deriving Repr, DecidableEq

/-- The operator dispatch: strict `gt`/`lt`, inclusive `gte`/`lte`,
`eq` numeric equality; anything else never matches. -/
def op_matches (op : String) (value threshold : ℚ) : Bool :=
  if op = "gt" then decide (threshold < value)
  else if op = "gte" then decide (threshold ≤ value)
  else if op = "lt" then decide (value < threshold)
  else if op = "lte" then decide (value ≤ threshold)
  else if op = "eq" then decide (value = threshold)
  else false

/-- Python `str.replace(pat, rep)`: left-to-right, non-overlapping. -/
def replace_sub (pat rep : List Char) : List Char → List Char
  | [] => []
  | c :: rest =>
    if h : pat ≠ [] ∧ ((c :: rest).take pat.length = pat) then
      rep ++ replace_sub pat rep ((c :: rest).drop pat.length)
    else c :: replace_sub pat rep rest
termination_by src => src.length
decreasing_by
· have hp : pat.length ≠ 0 := by
    intro h0
    exact h.1 (List.eq_nil_of_length_eq_zero h0)
  simp [List.length_drop]
  omega
· simp

/-- `str(round(value, 1))`: the rounded value rendered with one decimal
digit (model of Python's float formatting). -/
def render_round1 (q : ℚ) : String :=
  let n := bround (q * 10)
  let a := n.natAbs
  (if n < 0 then "-" else "") ++ toString (a / 10) ++ "." ++ toString (a % 10)

/-- `metric = cond["metricTemplate"].replace("{value}", str(round(value, 1)))
if cond.get("metricTemplate") else ""`. -/
def format_metric (cond : SuitCondition) (value : ℚ) : String :=
  match cond.metricTemplate with
  | some t => ⟨replace_sub "{value}".data (render_round1 value).data t.data⟩
  | none => ""

/-- The condition loop of `_execute_get_activity_advice`: first match
wins; a field absent from the insights is skipped. -/
def evaluate_conditions (activity_label : String) (insights : List (String × ℚ)) :
    List SuitCondition → Option Rating
  | [] => none
  | cond :: rest =>
    match insights.lookup cond.field with
    | none => evaluate_conditions activity_label insights rest
    | some value =>
      if op_matches cond.operator value cond.value then
        some { activity := activity_label, level := cond.level, label := cond.label,
               detail := cond.detail, metric := some (format_metric cond value) }
      else evaluate_conditions activity_label insights rest

/-- Evaluation of a resolved rule: the first matching condition's
rating, otherwise the rule's fallback. -/
def evaluate_rule (activity_label : String) (insights : List (String × ℚ))
    (rule : SuitabilityRule) : Rating :=
  match evaluate_conditions activity_label insights rule.conditions with
  | some r => r
  | none =>
    { activity := activity_label, level := rule.fallback.level,
      label := rule.fallback.label, detail := rule.fallback.detail, metric := none }

/-- Rule resolution: `activity:{id}` preferred over `category:{category}`
(the loop `for key in [f"activity:{id}", f"category:{cat}"]`). -/
def resolve_rule (rules : List (String × SuitabilityRule))
    (activity_id category : String) : Option SuitabilityRule :=
  match rules.lookup ("activity:" ++ activity_id) with
  | some r => some r
  | none => rules.lookup ("category:" ++ category)

/-- Whether a condition matches given the insights (lookup + operator). -/
def cond_matches (insights : List (String × ℚ)) (cond : SuitCondition) : Bool :=
  match insights.lookup cond.field with
  | some value => op_matches cond.operator value cond.value
  | none => false

/-- When no condition matches, the loop yields no rating. -/
theorem evaluate_conditions_eq_none (activity_label : String)
    (insights : List (String × ℚ)) :
    ∀ conds : List SuitCondition,
      (∀ c ∈ conds, cond_matches insights c = false) →
      evaluate_conditions activity_label insights conds = none := by
  intro conds
  induction conds with
  | nil => intro _; rfl
  | cons c rest ih =>
    intro h
    have hc := h c (List.mem_cons_self c rest)
    have hrest := ih (fun c' hc' => h c' (List.mem_cons_of_mem c hc'))
    simp only [evaluate_conditions]
    cases hl : insights.lookup c.field with
    | none => exact hrest
    | some v =>
      simp only [cond_matches, hl] at hc
      simp [hc, hrest]

/-- C8: rule resolution prefers `activity:{id}` over `category:{cat}`;
conditions are evaluated in declared order with absent insight fields
skipped; `gt`/`lt` are strict, `gte`/`lte` inclusive, `eq` numeric
equality; the first matching condition yields its level/label/detail and
a metric substituting `{value}` in `metricTemplate`; with no matching
condition the rule's fallback is returned. -/
theorem c8_suitability_first_match :
    (∀ (rules : List (String × SuitabilityRule)) (activity_id category : String)
        (r : SuitabilityRule),
      rules.lookup ("activity:" ++ activity_id) = some r →
        resolve_rule rules activity_id category = some r) ∧
    (∀ (rules : List (String × SuitabilityRule)) (activity_id category : String),
      rules.lookup ("activity:" ++ activity_id) = none →
        resolve_rule rules activity_id category
          = rules.lookup ("category:" ++ category)) ∧
    (∀ v t : ℚ,
      (op_matches "gt" v t = true ↔ t < v) ∧
      (op_matches "gte" v t = true ↔ t ≤ v) ∧
      (op_matches "lt" v t = true ↔ v < t) ∧
      (op_matches "lte" v t = true ↔ v ≤ t) ∧
      (op_matches "eq" v t = true ↔ v = t)) ∧
    (∀ (activity_label : String) (insights : List (String × ℚ))
        (cond : SuitCondition) (rest : List SuitCondition),
      insights.lookup cond.field = none →
        evaluate_conditions activity_label insights (cond :: rest)
          = evaluate_conditions activity_label insights rest) ∧
    (∀ (activity_label : String) (insights : List (String × ℚ))
        (cond : SuitCondition) (rest : List SuitCondition) (v : ℚ),
      insights.lookup cond.field = some v →
        (op_matches cond.operator v cond.value = true →
          evaluate_conditions activity_label insights (cond :: rest)
            = some { activity := activity_label, level := cond.level,
                     label := cond.label, detail := cond.detail,
                     metric := some (format_metric cond v) }) ∧
        (op_matches cond.operator v cond.value = false →
          evaluate_conditions activity_label insights (cond :: rest)
            = evaluate_conditions activity_label insights rest)) ∧
    (∀ (activity_label : String) (insights : List (String × ℚ))
        (rule : SuitabilityRule),
      (∀ c ∈ rule.conditions, cond_matches insights c = false) →
        evaluate_rule activity_label insights rule
          = { activity := activity_label, level := rule.fallback.level,
              label := rule.fallback.label, detail := rule.fallback.detail,
              metric := none }) := by
  refine ⟨?_, ?_, ?_, ?_, ?_, ?_⟩
  · intro rules activity_id category r h
    simp [resolve_rule, h]
  · intro rules activity_id category h
    simp [resolve_rule, h]
  · intro v t
    refine ⟨?_, ?_, ?_, ?_, ?_⟩ <;> simp [op_matches]
  · intro activity_label insights cond rest h
    simp [evaluate_conditions, h]
  · intro activity_label insights cond rest v h
    constructor
    · intro hm
      simp [evaluate_conditions, h, hm]
    · intro hm
      simp [evaluate_conditions, h, hm]
  · intro activity_label insights rule h
    have hnone := evaluate_conditions_eq_none activity_label insights rule.conditions h
    simp [evaluate_rule, hnone]

/-- The spec's sports-rule condition: `heatStressIndex > 40 → poor`. -/
def exCond : SuitCondition :=
  { field := "heatStressIndex", operator := "gt", value := 40,
    level := "poor", label := "Dangerous heat",
    detail := "Avoid strenuous activity.", metricTemplate := none }

/-- The spec's sports rule with fallback `good "OK"`. -/
def exRule : SuitabilityRule :=
  { conditions := [exCond], fallback := { level := "good", label := "OK", detail := "" } }

/-- C8 witness: `c8_suitability_first_match` instantiated at the spec's
`category:sports` example — matching at `heatStressIndex = 50`, falling
back at `heatStressIndex = 20`. -/
theorem c8_suitability_first_match_witness :
    (resolve_rule [("activity:running", exRule)] "running" "sports" = some exRule) ∧
    (resolve_rule [("category:sports", exRule)] "running" "sports"
      = List.lookup ("category:" ++ "sports") [("category:sports", exRule)]) ∧
    ((op_matches "gt" 50 40 = true ↔ (40 : ℚ) < 50) ∧
     (op_matches "gte" 50 40 = true ↔ (40 : ℚ) ≤ 50) ∧
     (op_matches "lt" 50 40 = true ↔ (50 : ℚ) < 40) ∧
     (op_matches "lte" 50 40 = true ↔ (50 : ℚ) ≤ 40) ∧
     (op_matches "eq" 50 40 = true ↔ (50 : ℚ) = 40)) ∧
    (evaluate_conditions "Running" [] [exCond] = evaluate_conditions "Running" [] []) ∧
    ((op_matches exCond.operator 50 exCond.value = true →
        evaluate_conditions "Running" [("heatStressIndex", 50)] [exCond]
          = some { activity := "Running", level := exCond.level, label := exCond.label,
                   detail := exCond.detail, metric := some (format_metric exCond 50) }) ∧
     (op_matches exCond.operator 50 exCond.value = false →
        evaluate_conditions "Running" [("heatStressIndex", 50)] [exCond]
          = evaluate_conditions "Running" [("heatStressIndex", 50)] [])) ∧
    (evaluate_rule "Running" [("heatStressIndex", 20)] exRule
      = { activity := "Running", level := exRule.fallback.level,
          label := exRule.fallback.label, detail := exRule.fallback.detail,
          metric := none }) :=
  ⟨c8_suitability_first_match.1 [("activity:running", exRule)] "running" "sports" exRule
      (by decide),
   c8_suitability_first_match.2.1 [("category:sports", exRule)] "running" "sports"
      (by decide),
   c8_suitability_first_match.2.2.1 50 40,
   c8_suitability_first_match.2.2.2.1 "Running" [] exCond [] (by decide),
   c8_suitability_first_match.2.2.2.2.1 "Running" [("heatStressIndex", 50)] exCond [] 50
      (by decide),
   c8_suitability_first_match.2.2.2.2.2 "Running" [("heatStressIndex", 20)] exRule
      (by decide)⟩
